import Mathlib

/-!
# Verification of ethqr-gen (EMVCo QR payload assembler)

Shallow embedding of the ethqr-gen Rust library: the CRC-16/CCITT engine
(`src/crc.rs`), the TLV tag codec, the scheme and additional-data encoders
(`src/fields.rs`), and the payload-assembling builder (`src/lib.rs`).

Rust `String`/`str` values are modelled as lists of UTF-8 bytes
(`List Nat`), since every length in the source (`str::len`) is a byte
count and every slice is a byte slice.  Machine integers (`u16` in the
CRC loop) are `Nat` with an explicit `&&& 0xFFFF` truncation at each
step, mirroring the 16-bit wrap of `crc << 8`.
-/

set_option maxRecDepth 100000

namespace EthQR

/-- UTF-8 bytes of an ASCII string literal.  For ASCII text the UTF-8
encoding is the identity on code points, so mapping `Char.toNat` over the
characters gives exactly the byte sequence Rust iterates with `str::bytes`. -/
def ascii (s : String) : List Nat := s.data.map Char.toNat

/-! ## CRC16 Engine (`src/crc.rs`) -/

/-- The 256-entry CRC-16-CCITT lookup table, `CRC16_CCITT_TABLE` in
`src/crc.rs`, transcribed verbatim. -/
def CRC16_CCITT_TABLE : List Nat := [
  0x0000, 0x1021, 0x2042, 0x3063, 0x4084, 0x50a5, 0x60c6, 0x70e7, 0x8108, 0x9129, 0xa14a, 0xb16b,
  0xc18c, 0xd1ad, 0xe1ce, 0xf1ef, 0x1231, 0x0210, 0x3273, 0x2252, 0x52b5, 0x4294, 0x72f7, 0x62d6,
  0x9339, 0x8318, 0xb37b, 0xa35a, 0xd3bd, 0xc39c, 0xf3ff, 0xe3de, 0x2462, 0x3443, 0x0420, 0x1401,
  0x64e6, 0x74c7, 0x44a4, 0x5485, 0xa56a, 0xb54b, 0x8528, 0x9509, 0xe5ee, 0xf5cf, 0xc5ac, 0xd58d,
  0x3653, 0x2672, 0x1611, 0x0630, 0x76d7, 0x66f6, 0x5695, 0x46b4, 0xb75b, 0xa77a, 0x9719, 0x8738,
  0xf7df, 0xe7fe, 0xd79d, 0xc7bc, 0x48c4, 0x58e5, 0x6886, 0x78a7, 0x0840, 0x1861, 0x2802, 0x3823,
  0xc9cc, 0xd9ed, 0xe98e, 0xf9af, 0x8948, 0x9969, 0xa90a, 0xb92b, 0x5af5, 0x4ad4, 0x7ab7, 0x6a96,
  0x1a71, 0x0a50, 0x3a33, 0x2a12, 0xdbfd, 0xcbdc, 0xfbbf, 0xeb9e, 0x9b79, 0x8b58, 0xbb3b, 0xab1a,
  0x6ca6, 0x7c87, 0x4ce4, 0x5cc5, 0x2c22, 0x3c03, 0x0c60, 0x1c41, 0xedae, 0xfd8f, 0xcdec, 0xddcd,
  0xad2a, 0xbd0b, 0x8d68, 0x9d49, 0x7e97, 0x6eb6, 0x5ed5, 0x4ef4, 0x3e13, 0x2e32, 0x1e51, 0x0e70,
  0xff9f, 0xefbe, 0xdfdd, 0xcffc, 0xbf1b, 0xaf3a, 0x9f59, 0x8f78, 0x9188, 0x81a9, 0xb1ca, 0xa1eb,
  0xd10c, 0xc12d, 0xf14e, 0xe16f, 0x1080, 0x00a1, 0x30c2, 0x20e3, 0x5004, 0x4025, 0x7046, 0x6067,
  0x83b9, 0x9398, 0xa3fb, 0xb3da, 0xc33d, 0xd31c, 0xe37f, 0xf35e, 0x02b1, 0x1290, 0x22f3, 0x32d2,
  0x4235, 0x5214, 0x6277, 0x7256, 0xb5ea, 0xa5cb, 0x95a8, 0x8589, 0xf56e, 0xe54f, 0xd52c, 0xc50d,
  0x34e2, 0x24c3, 0x14a0, 0x0481, 0x7466, 0x6447, 0x5424, 0x4405, 0xa7db, 0xb7fa, 0x8799, 0x97b8,
  0xe75f, 0xf77e, 0xc71d, 0xd73c, 0x26d3, 0x36f2, 0x0691, 0x16b0, 0x6657, 0x7676, 0x4615, 0x5634,
  0xd94c, 0xc96d, 0xf90e, 0xe92f, 0x99c8, 0x89e9, 0xb98a, 0xa9ab, 0x5844, 0x4865, 0x7806, 0x6827,
  0x18c0, 0x08e1, 0x3882, 0x28a3, 0xcb7d, 0xdb5c, 0xeb3f, 0xfb1e, 0x8bf9, 0x9bd8, 0xabbb, 0xbb9a,
  0x4a75, 0x5a54, 0x6a37, 0x7a16, 0x0af1, 0x1ad0, 0x2ab3, 0x3a92, 0xfd2e, 0xed0f, 0xdd6c, 0xcd4d,
  0xbdaa, 0xad8b, 0x9de8, 0x8dc9, 0x7c26, 0x6c07, 0x5c64, 0x4c45, 0x3ca2, 0x2c83, 0x1ce0, 0x0cc1,
  0xef1f, 0xff3e, 0xcf5d, 0xdf7c, 0xaf9b, 0xbfba, 0x8fd9, 0x9ff8, 0x6e17, 0x7e36, 0x4e55, 0x5e74,
  0x2e93, 0x3eb2, 0x0ed1, 0x1ef0]

/-- One iteration of the CRC loop in `calculate_crc16`: the `u16` shift
`crc << 8` wraps, hence the `&&& 0xFFFF`. -/
def crcStep (crc byte : Nat) : Nat :=
  ((crc <<< 8) ^^^ CRC16_CCITT_TABLE.getD (((crc >>> 8) ^^^ byte) &&& 0xFF) 0) &&& 0xFFFF

/-- The numeric CRC-16 value computed by the loop in `calculate_crc16`
(`src/crc.rs` lines 47-53): seed `0xFFFF`, table-driven update per byte. -/
def crc16num (data : List Nat) : Nat := data.foldl crcStep 0xFFFF

/-- ASCII byte of the uppercase hexadecimal digit for `d < 16`,
as produced by Rust `{:04X}` formatting. -/
def hexDigit (d : Nat) : Nat := if d < 10 then 48 + d else 55 + d

/-- Rust `format!("{crc:04X}")` on a `u16`: four uppercase, zero-padded
hexadecimal digits (a `u16` never needs more than four). -/
def hex4 (n : Nat) : List Nat :=
  [hexDigit (n / 4096 % 16), hexDigit (n / 256 % 16), hexDigit (n / 16 % 16), hexDigit (n % 16)]

/-- `calculate_crc16` (`src/crc.rs`): the CRC-16/CCITT of the input bytes,
formatted as a 4-character uppercase hexadecimal string. -/
def calculate_crc16 (data : List Nat) : List Nat := hex4 (crc16num data)

/-- Byte-wise ASCII model of `str::to_uppercase`.  Rust uppercases by
Unicode rules per character; on ASCII data the two agree byte for byte.
The only Unicode characters whose uppercase is a plain ASCII letter are
U+0131 (to I) and U+017F (to S), neither of which is a hexadecimal
digit, so comparisons against an ASCII hex string are unaffected. -/
def toUpperAscii (s : List Nat) : List Nat :=
  s.map fun b => if 97 ≤ b ∧ b ≤ 122 then b - 32 else b

/-- Rust `str::is_char_boundary` at index `i ≤ len`: true at 0 and at the
end, otherwise true iff the byte at `i` is not a UTF-8 continuation byte. -/
def isCharBoundary (s : List Nat) (i : Nat) : Bool :=
  i == 0 || i == s.length || (decide (i < s.length) && !(128 ≤ s.getD i 0 && s.getD i 0 < 192))

/-- `verify_crc` (`src/crc.rs` lines 79-101).  `none` models a Rust panic:
the byte slices `qr_string[start..start+4]`, `[..start+4]` and
`[start+4..]` panic when `start` or `start+4` is not a character
boundary, which can happen on non-ASCII input. -/
def verify_crc (qr : List Nat) : Option Bool :=
  if qr.length < 8 then some false
  else if isCharBoundary qr (qr.length - 8) && isCharBoundary qr (qr.length - 8 + 4) then
    if ((qr.drop (qr.length - 8)).take 4) ≠ ascii "6304" then some false
    else
      some (toUpperAscii (qr.drop (qr.length - 8 + 4))
        == toUpperAscii (calculate_crc16 (qr.take (qr.length - 8 + 4))))
  else none

/-! ## Tag Codec (`EMVTag` in `src/lib.rs`) -/

/-- Decimal ASCII digits of `m`, most significant first; the fuel argument
bounds the recursion (`m` itself always suffices). -/
def natDigitsGo : Nat → Nat → List Nat
  | 0, _ => []
  | fuel + 1, m => if m < 10 then [48 + m] else natDigitsGo fuel (m / 10) ++ [48 + m % 10]

/-- Decimal ASCII digits of `n`, most significant first. -/
def natDigits (n : Nat) : List Nat := natDigitsGo (n + 1) n

/-- Rust `format!("{:02}", n)`: the decimal digits of `n`, left-padded with
zeros to a minimum width of two.  Numbers of three or more digits are
printed in full, not truncated. -/
def fmt02 (n : Nat) : List Nat :=
  List.replicate (2 - (natDigits n).length) 48 ++ natDigits n

/-- `EMVTag` (`src/lib.rs` lines 110-113): a tag identifier and a value,
both byte strings. -/
structure EMVTag where
  id : List Nat
  value : List Nat
deriving DecidableEq, Repr

/-- `EMVTag::length` (`src/lib.rs`): byte length of the value. -/
def EMVTag.length (t : EMVTag) : Nat := t.value.length

/-- `EMVTag::encode` (`src/lib.rs` line 130):
`format!("{}{:02}{}", id, length, value)`. -/
def EMVTag.encode (t : EMVTag) : List Nat := t.id ++ fmt02 t.length ++ t.value

/-! ## Errors (`src/error.rs`) -/

/-- `QRError` (`src/error.rs`), restricted to the payload-core variants;
the image/QR-rendering wrappers carry only a message string. -/
inductive QRError where
  | InvalidFormat (message : List Nat)
  | InvalidCRC
  | MissingField (field : List Nat)
  | InvalidValue (field value : List Nat)
  | ValueTooLong (field : List Nat) (length max_length : Nat)
  | UnsupportedScheme (scheme : List Nat)
  | PayloadTooLong (length : Nat)
  | BuilderError (message : List Nat)
  | ValidationError (message : List Nat)
deriving DecidableEq, Repr

/-! ## Constants (`constants` and `tags` modules in `src/lib.rs`) -/

namespace constants

def PAYLOAD_FORMAT_INDICATOR : List Nat := ascii "01"

def ETB_CURRENCY_CODE : List Nat := ascii "230"

def ETHIOPIA_COUNTRY_CODE : List Nat := ascii "ET"

def MAX_QR_LENGTH : Nat := 512

def STATIC_QR_POI : List Nat := ascii "11"

def DYNAMIC_QR_POI : List Nat := ascii "12"

def MAX_MERCHANT_NAME_LEN : Nat := 25

def MAX_MERCHANT_CITY_LEN : Nat := 15

end constants

namespace tags

def PAYLOAD_FORMAT_INDICATOR : List Nat := ascii "00"

def POINT_OF_INITIATION : List Nat := ascii "01"

def MERCHANT_CATEGORY_CODE : List Nat := ascii "52"

def TRANSACTION_CURRENCY : List Nat := ascii "53"

def TRANSACTION_AMOUNT : List Nat := ascii "54"

def COUNTRY_CODE : List Nat := ascii "58"

def MERCHANT_NAME : List Nat := ascii "59"

def MERCHANT_CITY : List Nat := ascii "60"

def ADDITIONAL_DATA : List Nat := ascii "62"

def CRC : List Nat := ascii "63"

def TRANSACTION_CONTEXT : List Nat := ascii "80"

def VISA : List Nat := ascii "02"

def MASTERCARD : List Nat := ascii "04"

def UNIONPAY : List Nat := ascii "15"

def IPS_ET : List Nat := ascii "28"

end tags

/-! ## Scheme Encoder (`SchemeConfig` in `src/fields.rs`) -/

/-- `SchemeConfig` (`src/fields.rs` lines 195-210). -/
inductive SchemeConfig where
  | Visa (account_info : List Nat)
  | Mastercard (account_info : List Nat)
  | UnionPay (account_info : List Nat)
  | IPSET (guid bic account : List Nat)
deriving DecidableEq, Repr

/-- Byte-level `char::is_ascii_alphanumeric`.  On valid UTF-8 the char-wise
`all` of the source coincides with this byte-wise `all`: a non-ASCII char
contributes a lead byte ≥ 0xC0, which fails the byte test just as the
char fails the char test. -/
def isAsciiAlphanumeric (b : Nat) : Bool :=
  (48 ≤ b && b ≤ 57) || (65 ≤ b && b ≤ 90) || (97 ≤ b && b ≤ 122)

/-- `SchemeConfig::encode` (`src/fields.rs` lines 249-298): card-network
schemes pass the account info through; the interbank scheme validates
GUID, BIC and account and nests them as sub-tags "00", "01", "02". -/
def SchemeConfig.encode : SchemeConfig → Except QRError EMVTag
  | .Visa account_info => .ok ⟨tags.VISA, account_info⟩
  | .Mastercard account_info => .ok ⟨tags.MASTERCARD, account_info⟩
  | .UnionPay account_info => .ok ⟨tags.UNIONPAY, account_info⟩
  | .IPSET guid bic account =>
    if guid.length ≠ 32 || !(guid.all isAsciiAlphanumeric) then
      .error (.InvalidValue (ascii "guid") guid)
    else if bic.length ≠ 8 && bic.length ≠ 11 then
      .error (.InvalidValue (ascii "bic") bic)
    else if account.length > 24 then
      .error (.InvalidValue (ascii "account") account)
    else
      .ok ⟨tags.IPS_ET,
        (EMVTag.mk (ascii "00") guid).encode ++ (EMVTag.mk (ascii "01") bic).encode
          ++ (EMVTag.mk (ascii "02") account).encode⟩

/-! ## Additional-Data Encoder (`AdditionalData` in `src/fields.rs`) -/

/-- `AdditionalData` (`src/fields.rs` lines 7-34): thirteen optional
sub-fields of tag "62". -/
structure AdditionalData where
  bill_number : Option (List Nat) := none
  mobile_number : Option (List Nat) := none
  store_label : Option (List Nat) := none
  loyalty_number : Option (List Nat) := none
  reference_label : Option (List Nat) := none
  customer_label : Option (List Nat) := none
  terminal_number : Option (List Nat) := none
  purpose : Option (List Nat) := none
  additional_customer_data : Option (List Nat) := none
  merchant_tax_id : Option (List Nat) := none
  merchant_channel : Option (List Nat) := none
  due_date : Option (List Nat) := none
  amount_after_due_date : Option (List Nat) := none
deriving DecidableEq, Repr

/-- One conditional push of the `AdditionalData::encode` loop body: a
singleton sub-tag when the field is set, nothing otherwise. -/
def optTag (id : String) : Option (List Nat) → List EMVTag
  | some v => [⟨ascii id, v⟩]
  | none => []

/-- The `sub_tags` vector built by `AdditionalData::encode`
(`src/fields.rs` lines 111-151), in source push order. -/
def AdditionalData.subTags (d : AdditionalData) : List EMVTag :=
  optTag "01" d.bill_number ++ optTag "02" d.mobile_number ++ optTag "03" d.store_label
    ++ optTag "04" d.loyalty_number ++ optTag "05" d.reference_label
    ++ optTag "06" d.customer_label ++ optTag "07" d.terminal_number
    ++ optTag "08" d.purpose ++ optTag "09" d.additional_customer_data
    ++ optTag "10" d.merchant_tax_id ++ optTag "11" d.merchant_channel
    ++ optTag "50" d.due_date ++ optTag "51" d.amount_after_due_date

/-- `AdditionalData::encode` (`src/fields.rs` lines 110-162): `none` when
no sub-field is set, otherwise tag "62" wrapping the concatenated
sub-tag encodings. -/
def AdditionalData.encode (d : AdditionalData) : Option EMVTag :=
  if d.subTags.isEmpty then none
  else some ⟨tags.ADDITIONAL_DATA, (d.subTags.map EMVTag.encode).flatten⟩

/-! ## Payload Assembler (`QRBuilder` in `src/lib.rs`) -/

/-- `QRBuilder` (`src/lib.rs` lines 136-147).  The
`payload_format_indicator`, `point_of_initiation` and
`transaction_currency` fields are unconditionally overwritten by `build`
before use, so they are omitted here; all remaining configuration state
is carried. -/
structure QRBuilder where
  merchant_name : List Nat := []
  merchant_city : List Nat := []
  merchant_category_code : List Nat := []
  schemes : List SchemeConfig := []
  transaction_amount : Option (List Nat) := none
  additional_data : Option AdditionalData := none
  transaction_context : Option (List Nat) := none
deriving DecidableEq, Repr

/-- Byte-level `char::is_ascii_digit`; coincides with the source's
char-wise test on valid UTF-8 (non-ASCII lead bytes exceed 57). -/
def isAsciiDigit (b : Nat) : Bool := 48 ≤ b && b ≤ 57

/-- `QRBuilder::validate` (`src/lib.rs` lines 196-234): name length, city
length, category-code format, then scheme presence, first failure wins. -/
def QRBuilder.validate (b : QRBuilder) : Except QRError Unit :=
  if b.merchant_name.length > constants.MAX_MERCHANT_NAME_LEN then
    .error (.ValueTooLong (ascii "name") b.merchant_name.length constants.MAX_MERCHANT_NAME_LEN)
  else if b.merchant_city.length > constants.MAX_MERCHANT_CITY_LEN then
    .error (.ValueTooLong (ascii "city") b.merchant_city.length constants.MAX_MERCHANT_CITY_LEN)
  else if b.merchant_category_code.length ≠ 4 || !(b.merchant_category_code.all isAsciiDigit) then
    .error (.InvalidValue (ascii "category_code") b.merchant_category_code)
  else if b.schemes.isEmpty then
    .error (.MissingField (ascii "schemes"))
  else .ok ()

/-- The scheme loop of `QRBuilder::build` (`src/lib.rs` lines 263-265):
`tags.push(scheme.encode()?)` for each configured scheme in order, the
first encoding error aborting the whole build. -/
def encodeSchemes : List SchemeConfig → Except QRError (List EMVTag)
  | [] => .ok []
  | s :: rest =>
    match s.encode with
    | .error e => .error e
    | .ok t =>
      match encodeSchemes rest with
      | .error e => .error e
      | .ok ts => .ok (t :: ts)

/-- The `tags` vector built by `QRBuilder::build` (`src/lib.rs` lines
249-306) after validation: the pushes of the source, in source order,
with the point-of-initiation derived from the presence of a transaction
amount and the fixed payload-format / currency / country constants. -/
def QRBuilder.assembleTags (b : QRBuilder) : Except QRError (List EMVTag) :=
  match b.validate with
  | .error e => .error e
  | .ok _ =>
  match encodeSchemes b.schemes with
  | .error e => .error e
  | .ok schemeTags => .ok <|
    [⟨tags.PAYLOAD_FORMAT_INDICATOR, constants.PAYLOAD_FORMAT_INDICATOR⟩,
      ⟨tags.POINT_OF_INITIATION,
        if b.transaction_amount.isSome then constants.DYNAMIC_QR_POI
        else constants.STATIC_QR_POI⟩]
    ++ schemeTags
    ++ [⟨tags.MERCHANT_CATEGORY_CODE, b.merchant_category_code⟩,
        ⟨tags.TRANSACTION_CURRENCY, constants.ETB_CURRENCY_CODE⟩]
    ++ (match b.transaction_amount with
        | some a => [⟨tags.TRANSACTION_AMOUNT, a⟩]
        | none => [])
    ++ [⟨tags.COUNTRY_CODE, constants.ETHIOPIA_COUNTRY_CODE⟩,
        ⟨tags.MERCHANT_NAME, b.merchant_name⟩,
        ⟨tags.MERCHANT_CITY, b.merchant_city⟩]
    ++ (match b.additional_data with
        | some d =>
          match d.encode with
          | some t => [t]
          | none => []
        | none => [])
    ++ (match b.transaction_context with
        | some c => [⟨tags.TRANSACTION_CONTEXT, c⟩]
        | none => [])

/-- The payload string assembled by `QRBuilder::build` from its tag
vector (`src/lib.rs` lines 308-313): the concatenated tag encodings,
followed by `"63" ++ fmt02(crc.len()) ++ crc`, where the checksum covers
the concatenation plus the literal `"6304"` header. -/
def fullPayload (ts : List EMVTag) : List Nat :=
  (ts.map EMVTag.encode).flatten ++ ascii "63"
    ++ fmt02 (calculate_crc16 ((ts.map EMVTag.encode).flatten ++ ascii "6304")).length
    ++ calculate_crc16 ((ts.map EMVTag.encode).flatten ++ ascii "6304")

/-- `QRBuilder::build` (`src/lib.rs` lines 237-323): validate, assemble
the tag vector, concatenate the encodings with the CRC trailer, then
enforce the 512-byte ceiling. -/
def QRBuilder.build (b : QRBuilder) : Except QRError (List Nat) :=
  match b.assembleTags with
  | .error e => .error e
  | .ok ts =>
    if (fullPayload ts).length > constants.MAX_QR_LENGTH then
      .error (.PayloadTooLong (fullPayload ts).length)
    else .ok (fullPayload ts)

/-! ## General lemmas -/

/-- Sanity check of the table-driven loop against the standard
CRC-16/CCITT-FALSE check value for the string "123456789". -/
theorem crc16num_check : crc16num (ascii "123456789") = 0x29B1 := by decide

/-- The CRC loop keeps its accumulator within `u16` range, so `hex4` is
only ever applied to values a real `{:04X}` prints as four digits. -/
theorem crc16num_lt (data : List Nat) : crc16num data < 65536 := by
  have key : ∀ (l : List Nat) (c : Nat), c < 65536 → l.foldl crcStep c < 65536 := by
    intro l
    induction l with
    | nil => intro c hc; exact hc
    | cons a t ih =>
      intro c _
      exact ih (crcStep c a) (Nat.lt_of_le_of_lt Nat.and_le_right (by norm_num))
  exact key data 0xFFFF (by norm_num)

theorem hexDigit_lt_128 (d : Nat) (h : d < 16) : hexDigit d < 128 := by
  unfold hexDigit; split <;> omega

theorem hexDigit_is_hex (d : Nat) (h : d < 16) :
    (48 ≤ hexDigit d ∧ hexDigit d ≤ 57) ∨ (65 ≤ hexDigit d ∧ hexDigit d ≤ 70) := by
  unfold hexDigit; split
  · left; omega
  · right; omega

theorem natDigitsGo_ne_nil (fuel m : Nat) : natDigitsGo (fuel + 1) m ≠ [] := by
  unfold natDigitsGo; split <;> simp

theorem natDigits_ne_nil (n : Nat) : natDigits n ≠ [] := natDigitsGo_ne_nil n n

theorem fmt02_ne_nil (n : Nat) : fmt02 n ≠ [] := by
  unfold fmt02
  intro h
  exact natDigits_ne_nil n (List.append_eq_nil.mp h).2

theorem EMVTag.encode_ne_nil (t : EMVTag) : t.encode ≠ [] := by
  unfold EMVTag.encode
  intro h
  exact fmt02_ne_nil _ ((List.append_eq_nil.mp (List.append_eq_nil.mp h).1).2)

/-- For lengths up to 99 the `{:02}` format prints exactly the two digits
tens-then-ones. -/
theorem fmt02_eq_two_digits : ∀ n < 100, fmt02 n = [48 + n / 10, 48 + n % 10] := by decide

theorem getD_append_right (l₁ l₂ : List Nat) (i : Nat) :
    (l₁ ++ l₂).getD (l₁.length + i) 0 = l₂.getD i 0 := by
  induction l₁ with
  | nil => simp
  | cons a t ih => simpa [Nat.succ_add] using ih

/-! ## Claim C2: checksum value on the sample payload and output format -/

/-- C2: `calculate_crc16` on the EMVCo sample payload yields "A9AD", and
on every input the result is a 4-character string of uppercase
hexadecimal digits (ASCII 48-57 or 65-70), zero-padding included. -/
theorem crc_sample_and_format :
    calculate_crc16 (ascii "000201010212020140001234567890120415534512345678901252045999530358654041.005802CN5914BEST TRANSPORT6009GUANGZHOU6304")
        = ascii "A9AD"
    ∧ ∀ data : List Nat, (calculate_crc16 data).length = 4
        ∧ ∀ b ∈ calculate_crc16 data, (48 ≤ b ∧ b ≤ 57) ∨ (65 ≤ b ∧ b ≤ 70) := by
  refine ⟨by decide, fun data => ⟨rfl, ?_⟩⟩
  intro b hb
  simp only [calculate_crc16, hex4, List.mem_cons, List.not_mem_nil, or_false] at hb
  rcases hb with h | h | h | h <;> subst h <;>
    exact hexDigit_is_hex _ (Nat.mod_lt _ (by norm_num))

/-- Witness for C2: the second conjunct applied to the empty input, whose
CRC is "FFFF"; 70 is the ASCII code of the digit F. -/
theorem crc_sample_and_format_witness :
    (48 ≤ 70 ∧ 70 ≤ 57) ∨ (65 ≤ 70 ∧ 70 ≤ 70) :=
  (crc_sample_and_format.2 []).2 70 (by decide)

/-! ## Claim C4 (corrected): the TLV length field -/

/-- C4 counterexample: on a 100-byte value the length field printed by
`{:02}` is the three digits "100", not two digits, so `encode` is not
always `id ++ two-digit-length ++ value`. -/
theorem encode_length_field_overflow :
    (EMVTag.mk (ascii "80") (List.replicate 100 97)).encode
        = ascii "80" ++ ascii "100" ++ List.replicate 100 97
    ∧ (ascii "100").length = 3 := by
  constructor
  · decide
  · decide

/-- C4 amended: `encode(id, value)` is `id ++ fmt02 (byte-length value)
++ value` where `fmt02` zero-pads the decimal digits to a minimum width
of two; whenever the value is at most 99 bytes long the length field is
exactly the two zero-padded decimal digits of the byte length. -/
theorem encode_tlv_spec (t : EMVTag) (h : t.value.length ≤ 99) :
    t.encode = t.id ++ [48 + t.value.length / 10, 48 + t.value.length % 10] ++ t.value
    ∧ (fmt02 t.value.length).length = 2 := by
  have h2 := fmt02_eq_two_digits t.value.length (by omega)
  refine ⟨?_, by rw [h2]; rfl⟩
  unfold EMVTag.encode EMVTag.length
  rw [h2]

/-- Witness for C4: the amended statement evaluated on tag "59" with the
two-byte value "AB". -/
theorem encode_tlv_spec_witness :
    (EMVTag.mk (ascii "59") (ascii "AB")).encode
        = ascii "59" ++ [48 + 2 / 10, 48 + 2 % 10] ++ ascii "AB"
    ∧ (fmt02 (ascii "AB").length).length = 2 :=
  encode_tlv_spec (EMVTag.mk (ascii "59") (ascii "AB")) (by decide)

/-! ## Claim C7 (code bug): verify on short and non-ASCII input -/

/-- Helper: any input shorter than 8 bytes makes `verify_crc` return
false without touching the input bytes. -/
theorem verify_crc_short (q : List Nat) (h : q.length < 8) :
    verify_crc q = some false := by
  unfold verify_crc
  rw [if_pos h]

/-- C7: the spec's concrete examples do return false, but `verify_crc` is
not total: on the valid 9-byte UTF-8 string "é2345678" the slice at byte
index `len - 8 = 1` falls inside the two-byte character é, and the Rust
slicing `&qr_string[1..5]` panics (modelled by `none`) instead of
returning a boolean. -/
theorem verify_crc_short_false_and_panic :
    verify_crc (ascii "") = some false
    ∧ verify_crc (ascii "1234567") = some false
    ∧ verify_crc (ascii "12345678901234567890") = some false
    ∧ verify_crc [0xC3, 0xA9, 50, 51, 52, 53, 54, 55, 56] = none := by
  refine ⟨by decide, by decide, by decide, by decide⟩

/-! ## Claim C5: scheme encoding -/

/-- Propositional normal form of the interbank branch of
`SchemeConfig.encode`: the three boolean guards of the source, as an
if-chain over decidable propositions. -/
theorem SchemeConfig.encode_ipset_eq (g bi ac : List Nat) :
    (SchemeConfig.IPSET g bi ac).encode =
      if ¬(g.length = 32 ∧ g.all isAsciiAlphanumeric = true) then
        .error (.InvalidValue (ascii "guid") g)
      else if ¬(bi.length = 8 ∨ bi.length = 11) then
        .error (.InvalidValue (ascii "bic") bi)
      else if 24 < ac.length then
        .error (.InvalidValue (ascii "account") ac)
      else
        .ok ⟨tags.IPS_ET,
          (EMVTag.mk (ascii "00") g).encode ++ (EMVTag.mk (ascii "01") bi).encode
            ++ (EMVTag.mk (ascii "02") ac).encode⟩ := by
  by_cases h1 : g.length = 32 <;> by_cases h2 : g.all isAsciiAlphanumeric = true <;>
    by_cases h3 : bi.length = 8 <;> by_cases h4 : bi.length = 11 <;>
    simp [SchemeConfig.encode, h1, h2, h3, h4]

/-- C5: the interbank scheme validates GUID (exactly 32 alphanumeric
bytes), then BIC (length 8 or 11), then account (length at most 24), in
that order, each failure reported as `InvalidValue` on the corresponding
field, and on success nests sub-tags "00" (GUID), "01" (BIC), "02"
(account) under outer tag "28"; Visa, Mastercard and UnionPay always
succeed, passing the account info through under their fixed tag IDs. -/
theorem scheme_encode_spec :
    (∀ a : List Nat, (SchemeConfig.Visa a).encode = .ok ⟨ascii "02", a⟩)
    ∧ (∀ a : List Nat, (SchemeConfig.Mastercard a).encode = .ok ⟨ascii "04", a⟩)
    ∧ (∀ a : List Nat, (SchemeConfig.UnionPay a).encode = .ok ⟨ascii "15", a⟩)
    ∧ ∀ g bi ac : List Nat,
        (((SchemeConfig.IPSET g bi ac).encode = .error (.InvalidValue (ascii "guid") g))
          ↔ ¬(g.length = 32 ∧ g.all isAsciiAlphanumeric = true))
        ∧ (g.length = 32 → g.all isAsciiAlphanumeric = true →
            (((SchemeConfig.IPSET g bi ac).encode = .error (.InvalidValue (ascii "bic") bi))
              ↔ ¬(bi.length = 8 ∨ bi.length = 11)))
        ∧ (g.length = 32 → g.all isAsciiAlphanumeric = true →
            (bi.length = 8 ∨ bi.length = 11) →
            (((SchemeConfig.IPSET g bi ac).encode
                = .error (.InvalidValue (ascii "account") ac))
              ↔ 24 < ac.length))
        ∧ (g.length = 32 → g.all isAsciiAlphanumeric = true →
            (bi.length = 8 ∨ bi.length = 11) → ac.length ≤ 24 →
            (SchemeConfig.IPSET g bi ac).encode
              = .ok ⟨ascii "28",
                  (EMVTag.mk (ascii "00") g).encode ++ (EMVTag.mk (ascii "01") bi).encode
                    ++ (EMVTag.mk (ascii "02") ac).encode⟩) := by
  refine ⟨fun a => rfl, fun a => rfl, fun a => rfl, fun g bi ac => ⟨?_, ?_, ?_, ?_⟩⟩
  · rw [SchemeConfig.encode_ipset_eq]
    by_cases h1 : ¬(g.length = 32 ∧ g.all isAsciiAlphanumeric = true)
    · rw [if_pos h1]
      exact iff_of_true rfl h1
    · rw [if_neg h1]
      refine iff_of_false ?_ h1
      split_ifs with h2 h3 <;> simp [ascii]
  · intro hg1 hg2
    rw [SchemeConfig.encode_ipset_eq, if_neg (by simp [hg1, hg2])]
    by_cases h2 : ¬(bi.length = 8 ∨ bi.length = 11)
    · rw [if_pos h2]
      exact iff_of_true rfl h2
    · rw [if_neg h2]
      refine iff_of_false ?_ h2
      split_ifs with h3 <;> simp [ascii]
  · intro hg1 hg2 hbi
    rw [SchemeConfig.encode_ipset_eq, if_neg (by simp [hg1, hg2]), if_neg (by simp [hbi])]
    by_cases h3 : 24 < ac.length
    · rw [if_pos h3]
      exact iff_of_true rfl h3
    · rw [if_neg h3]
      exact iff_of_false (by simp) h3
  · intro hg1 hg2 hbi hac
    rw [SchemeConfig.encode_ipset_eq, if_neg (by simp [hg1, hg2]), if_neg (by simp [hbi]),
      if_neg (by omega)]
    rfl

/-- Witness for C5: a valid interbank configuration (the GUID of the
crate's doc example) encodes successfully, and a 9-character BIC is
rejected on the "bic" field. -/
theorem scheme_encode_spec_witness :
    (SchemeConfig.IPSET (ascii "581b314e257f41bfbbdc6384daa31d16") (ascii "CBETETAA")
        (ascii "10000171234567890")).encode
      = .ok ⟨ascii "28",
          (EMVTag.mk (ascii "00") (ascii "581b314e257f41bfbbdc6384daa31d16")).encode
            ++ (EMVTag.mk (ascii "01") (ascii "CBETETAA")).encode
            ++ (EMVTag.mk (ascii "02") (ascii "10000171234567890")).encode⟩
    ∧ ((SchemeConfig.IPSET (ascii "581b314e257f41bfbbdc6384daa31d16") (ascii "CBETETAA1")
        (ascii "10000171234567890")).encode
      = .error (.InvalidValue (ascii "bic") (ascii "CBETETAA1"))
        ↔ ¬((ascii "CBETETAA1").length = 8 ∨ (ascii "CBETETAA1").length = 11)) := by
  constructor
  · exact (scheme_encode_spec.2.2.2 _ _ _).2.2.2 (by decide) (by decide) (by decide) (by decide)
  · exact (scheme_encode_spec.2.2.2 _ _ _).2.1 (by decide) (by decide)

/-! ## Claim C6: build validation order -/

/-- Propositional normal form of `QRBuilder.validate`: the four checks of
the source as an if-chain over decidable propositions. -/
theorem QRBuilder.validate_eq (b : QRBuilder) :
    b.validate =
      if 25 < b.merchant_name.length then
        .error (.ValueTooLong (ascii "name") b.merchant_name.length 25)
      else if 15 < b.merchant_city.length then
        .error (.ValueTooLong (ascii "city") b.merchant_city.length 15)
      else if ¬(b.merchant_category_code.length = 4
          ∧ b.merchant_category_code.all isAsciiDigit = true) then
        .error (.InvalidValue (ascii "category_code") b.merchant_category_code)
      else if b.schemes = [] then .error (.MissingField (ascii "schemes"))
      else .ok () := by
  by_cases h3 : b.merchant_category_code.length = 4 <;>
    by_cases h4 : b.merchant_category_code.all isAsciiDigit = true <;>
    by_cases h5 : b.schemes = [] <;>
    simp [QRBuilder.validate, constants.MAX_MERCHANT_NAME_LEN, constants.MAX_MERCHANT_CITY_LEN,
      h3, h4, h5, List.isEmpty_iff]

/-- C6: validation checks, in order and with the first failure winning:
merchant name over 25 bytes, merchant city over 15 bytes, category code
not exactly 4 ASCII digits, no scheme configured; when all four pass,
validation succeeds. -/
theorem validate_spec (b : QRBuilder) :
    (25 < b.merchant_name.length →
      b.validate = .error (.ValueTooLong (ascii "name") b.merchant_name.length 25))
    ∧ (b.merchant_name.length ≤ 25 → 15 < b.merchant_city.length →
      b.validate = .error (.ValueTooLong (ascii "city") b.merchant_city.length 15))
    ∧ (b.merchant_name.length ≤ 25 → b.merchant_city.length ≤ 15 →
      ¬(b.merchant_category_code.length = 4
          ∧ b.merchant_category_code.all isAsciiDigit = true) →
      b.validate = .error (.InvalidValue (ascii "category_code") b.merchant_category_code))
    ∧ (b.merchant_name.length ≤ 25 → b.merchant_city.length ≤ 15 →
      b.merchant_category_code.length = 4 → b.merchant_category_code.all isAsciiDigit = true →
      b.schemes = [] → b.validate = .error (.MissingField (ascii "schemes")))
    ∧ (b.merchant_name.length ≤ 25 → b.merchant_city.length ≤ 15 →
      b.merchant_category_code.length = 4 → b.merchant_category_code.all isAsciiDigit = true →
      b.schemes ≠ [] → b.validate = .ok ()) := by
  rw [QRBuilder.validate_eq]
  refine ⟨fun h1 => by rw [if_pos h1], ?_, ?_, ?_, ?_⟩
  · intro h1 h2
    rw [if_neg (by omega), if_pos h2]
  · intro h1 h2 h3
    rw [if_neg (by omega), if_neg (by omega), if_pos h3]
  · intro h1 h2 h3 h4 h5
    rw [if_neg (by omega), if_neg (by omega), if_neg (by simp [h3, h4]), if_pos h5]
  · intro h1 h2 h3 h4 h5
    rw [if_neg (by omega), if_neg (by omega), if_neg (by simp [h3, h4]), if_neg h5]

/-- Builder configuration exercising the validation witness: 25-byte
name, category code "5812", one Visa scheme. -/
def cfgValidateW : QRBuilder :=
  { merchant_name := ascii "exactly 25 bytes long nam"
    merchant_city := ascii "Addis Ababa"
    merchant_category_code := ascii "5812"
    schemes := [.Visa (ascii "4111111111111111")] }

/-- Witness for C6: the all-checks-pass branch on a configuration with a
25-byte name, and the category-code rejection on "581a". -/
theorem validate_spec_witness :
    cfgValidateW.validate = .ok ()
    ∧ { cfgValidateW with merchant_category_code := ascii "581a" }.validate
        = .error (.InvalidValue (ascii "category_code") (ascii "581a")) := by
  constructor
  · exact (validate_spec cfgValidateW).2.2.2.2 (by decide) (by decide) (by decide) (by decide)
      (by decide)
  · exact (validate_spec _).2.2.1 (by decide) (by decide) (by decide)

/-! ## Build-level lemmas -/

theorem QRBuilder.build_eq_of_tags (b : QRBuilder) (ts : List EMVTag)
    (h : b.assembleTags = .ok ts) :
    b.build =
      if (fullPayload ts).length > constants.MAX_QR_LENGTH then
        .error (.PayloadTooLong (fullPayload ts).length)
      else .ok (fullPayload ts) := by
  unfold QRBuilder.build
  rw [h]

theorem QRBuilder.build_ok_elim (b : QRBuilder) (p : List Nat) (hb : b.build = .ok p) :
    ∃ ts, b.assembleTags = .ok ts ∧ p = fullPayload ts ∧ (fullPayload ts).length ≤ 512 := by
  cases h : b.assembleTags with
  | error e =>
    unfold QRBuilder.build at hb
    rw [h] at hb
    exact absurd hb (by simp)
  | ok ts =>
    rw [QRBuilder.build_eq_of_tags b ts h] at hb
    split_ifs at hb with hl
    refine ⟨ts, rfl, ?_, ?_⟩
    · injection hb with h'
      exact h'.symm
    · simp only [constants.MAX_QR_LENGTH, gt_iff_lt, not_lt] at hl
      exact hl

/-- The payload of a successful build, regrouped as checksummed base
(everything up to and including the "6304" header) plus checksum. -/
theorem fullPayload_eq (ts : List EMVTag) :
    fullPayload ts =
      ((ts.map EMVTag.encode).flatten ++ ascii "6304")
        ++ calculate_crc16 ((ts.map EMVTag.encode).flatten ++ ascii "6304") := by
  unfold fullPayload
  rw [show fmt02 (calculate_crc16 ((ts.map EMVTag.encode).flatten ++ ascii "6304")).length
      = [48, 52] from rfl]
  rw [show ascii "63" = [54, 51] from rfl, show ascii "6304" = [54, 51, 48, 52] from rfl]
  simp

/-- A position strictly inside the string holding a plain ASCII byte is
a character boundary. -/
theorem isCharBoundary_of_ascii (s : List Nat) (i : Nat) (hi : i < s.length)
    (hbyte : s.getD i 0 < 128) : isCharBoundary s i = true := by
  unfold isCharBoundary
  rw [decide_eq_true hi, decide_eq_false (by omega : ¬128 ≤ s.getD i 0)]
  simp

/-- Technical core of the round trip: a list of the form
`base ++ "6304" ++ c` with `c` of length 4 and an ASCII first byte
passes the length, boundary and "6304" checks of `verify_crc`, leaving
the checksum comparison. -/
theorem verify_crc_of_trailing (payload c : List Nat) (hclen : c.length = 4)
    (hc0 : c.getD 0 0 < 128) :
    verify_crc ((payload ++ [54, 51, 48, 52]) ++ c)
      = some (toUpperAscii c
          == toUpperAscii (calculate_crc16 (payload ++ [54, 51, 48, 52]))) := by
  have hA : (payload ++ [54, 51, 48, 52]).length = payload.length + 4 := by
    rw [List.length_append]
    rfl
  have hq : ((payload ++ [54, 51, 48, 52]) ++ c).length = payload.length + 8 := by
    rw [List.length_append, hA, hclen]
  have hget1 : ((payload ++ [54, 51, 48, 52]) ++ c).getD payload.length 0 = 54 := by
    rw [List.append_assoc]
    have h := getD_append_right payload ([54, 51, 48, 52] ++ c) 0
    rw [Nat.add_zero] at h
    rw [h]
    rfl
  have hget2 : ((payload ++ [54, 51, 48, 52]) ++ c).getD (payload.length + 4) 0
      = c.getD 0 0 := by
    have h := getD_append_right (payload ++ [54, 51, 48, 52]) c 0
    rwa [hA, Nat.add_zero] at h
  unfold verify_crc
  rw [hq]
  rw [if_neg (by omega)]
  have h8 : payload.length + 8 - 8 = payload.length := by omega
  rw [h8]
  have hb1 : isCharBoundary ((payload ++ [54, 51, 48, 52]) ++ c) payload.length = true :=
    isCharBoundary_of_ascii _ _ (by omega) (by rw [hget1]; omega)
  have hb2 : isCharBoundary ((payload ++ [54, 51, 48, 52]) ++ c) (payload.length + 4)
      = true :=
    isCharBoundary_of_ascii _ _ (by omega) (by rw [hget2]; omega)
  rw [if_pos (by rw [hb1, hb2]; rfl)]
  have hdrop : ((payload ++ [54, 51, 48, 52]) ++ c).drop payload.length
      = [54, 51, 48, 52] ++ c := by
    rw [List.append_assoc]
    exact List.drop_left payload _
  rw [hdrop]
  rw [if_neg (fun hne => hne (by rfl))]
  have hdrop2 : ((payload ++ [54, 51, 48, 52]) ++ c).drop (payload.length + 4) = c := by
    have h := List.drop_left (payload ++ [54, 51, 48, 52]) c
    rwa [hA] at h
  have htake2 : ((payload ++ [54, 51, 48, 52]) ++ c).take (payload.length + 4)
      = payload ++ [54, 51, 48, 52] := by
    have h := List.take_left (payload ++ [54, 51, 48, 52]) c
    rwa [hA] at h
  rw [hdrop2, htake2]

/-- Appending the computed checksum after the "6304" header always
verifies. -/
theorem verify_append_crc (payload : List Nat) :
    verify_crc ((payload ++ ascii "6304") ++ calculate_crc16 (payload ++ ascii "6304"))
      = some true := by
  rw [show ascii "6304" = [54, 51, 48, 52] from rfl]
  have hc0 : (calculate_crc16 (payload ++ [54, 51, 48, 52])).getD 0 0
      = hexDigit (crc16num (payload ++ [54, 51, 48, 52]) / 4096 % 16) := rfl
  rw [verify_crc_of_trailing payload (calculate_crc16 (payload ++ [54, 51, 48, 52])) rfl
    (by rw [hc0]; exact hexDigit_lt_128 _ (Nat.mod_lt _ (by norm_num)))]
  simp

/-! ## Claim C1: round trip -/

/-- C1: every payload returned by a successful build passes CRC
verification. -/
theorem build_verify_roundtrip (b : QRBuilder) (p : List Nat) (h : b.build = .ok p) :
    verify_crc p = some true := by
  obtain ⟨ts, hts, hp, hle⟩ := QRBuilder.build_ok_elim b p h
  rw [hp, fullPayload_eq]
  exact verify_append_crc _

/-- Builder configuration of the crate's static-QR doc example, used as
the round-trip witness. -/
def cfgRoundTripW : QRBuilder :=
  { merchant_name := ascii "Coffee Shop"
    merchant_city := ascii "Addis Ababa"
    merchant_category_code := ascii "5812"
    schemes := [.Visa (ascii "4111111111111111")] }

/-- Witness for C1: the doc-example configuration builds successfully and
its payload verifies. -/
theorem build_verify_roundtrip_witness :
    verify_crc ((cfgRoundTripW.build).toOption.getD []) = some true :=
  build_verify_roundtrip cfgRoundTripW _ (by rfl)

/-- Reduction of `assembleTags` when validation and scheme encoding both
succeed: the tag vector in source push order. -/
theorem QRBuilder.assembleTags_eq (b : QRBuilder) (sts : List EMVTag)
    (hv : b.validate = .ok ()) (hs : encodeSchemes b.schemes = .ok sts) :
    b.assembleTags = .ok (
      [⟨tags.PAYLOAD_FORMAT_INDICATOR, constants.PAYLOAD_FORMAT_INDICATOR⟩,
        ⟨tags.POINT_OF_INITIATION,
          if b.transaction_amount.isSome then constants.DYNAMIC_QR_POI
          else constants.STATIC_QR_POI⟩]
      ++ sts
      ++ [⟨tags.MERCHANT_CATEGORY_CODE, b.merchant_category_code⟩,
          ⟨tags.TRANSACTION_CURRENCY, constants.ETB_CURRENCY_CODE⟩]
      ++ (match b.transaction_amount with
          | some a => [⟨tags.TRANSACTION_AMOUNT, a⟩]
          | none => [])
      ++ [⟨tags.COUNTRY_CODE, constants.ETHIOPIA_COUNTRY_CODE⟩,
          ⟨tags.MERCHANT_NAME, b.merchant_name⟩,
          ⟨tags.MERCHANT_CITY, b.merchant_city⟩]
      ++ (match b.additional_data with
          | some d =>
            match d.encode with
            | some t => [t]
            | none => []
          | none => [])
      ++ (match b.transaction_context with
          | some c => [⟨tags.TRANSACTION_CONTEXT, c⟩]
          | none => [])) := by
  unfold QRBuilder.assembleTags
  rw [hv, hs]

/-- Inversion of a successful `assembleTags`: validation and scheme
encoding succeeded and the tag vector has the assembled shape. -/
theorem QRBuilder.assembleTags_ok_elim (b : QRBuilder) (ts : List EMVTag)
    (h : b.assembleTags = .ok ts) :
    ∃ sts, b.validate = .ok () ∧ encodeSchemes b.schemes = .ok sts ∧
      ts = [⟨tags.PAYLOAD_FORMAT_INDICATOR, constants.PAYLOAD_FORMAT_INDICATOR⟩,
        ⟨tags.POINT_OF_INITIATION,
          if b.transaction_amount.isSome then constants.DYNAMIC_QR_POI
          else constants.STATIC_QR_POI⟩]
      ++ sts
      ++ [⟨tags.MERCHANT_CATEGORY_CODE, b.merchant_category_code⟩,
          ⟨tags.TRANSACTION_CURRENCY, constants.ETB_CURRENCY_CODE⟩]
      ++ (match b.transaction_amount with
          | some a => [⟨tags.TRANSACTION_AMOUNT, a⟩]
          | none => [])
      ++ [⟨tags.COUNTRY_CODE, constants.ETHIOPIA_COUNTRY_CODE⟩,
          ⟨tags.MERCHANT_NAME, b.merchant_name⟩,
          ⟨tags.MERCHANT_CITY, b.merchant_city⟩]
      ++ (match b.additional_data with
          | some d =>
            match d.encode with
            | some t => [t]
            | none => []
          | none => [])
      ++ (match b.transaction_context with
          | some c => [⟨tags.TRANSACTION_CONTEXT, c⟩]
          | none => []) := by
  cases hv : b.validate with
  | error e =>
    have he : b.assembleTags = .error e := by
      unfold QRBuilder.assembleTags
      rw [hv]
    rw [he] at h
    exact absurd h (by simp)
  | ok u =>
    cases u
    cases hs : encodeSchemes b.schemes with
    | error e =>
      have he : b.assembleTags = .error e := by
        unfold QRBuilder.assembleTags
        rw [hv, hs]
      rw [he] at h
      exact absurd h (by simp)
    | ok sts =>
      rw [QRBuilder.assembleTags_eq b sts hv hs] at h
      injection h with h'
      exact ⟨sts, rfl, rfl, h'.symm⟩

/-- Flattening the encoded additional-data segment: a one-element or
empty tag list collapses to the tag's encoding or nothing. -/
theorem map_encode_flatten_addl (o : Option EMVTag) :
    (List.map EMVTag.encode (match o with | some t => [t] | none => [])).flatten
      = (match o with | some t => t.encode | none => []) := by
  cases o <;> simp

/-! ## Claim C3: fixed tag order of the built payload -/

/-- C3: when validation passes and every configured scheme encodes, a
successful build returns exactly the TLV concatenation in the fixed
order: "00"="01", "01" derived ("12" with an amount, "11" without), the
scheme tags in caller order, "52", "53"="230", "54" only when an amount
is set, "58"="ET", "59", "60", "62" only when some additional-data
sub-field is set, "80" only when set, then the "6304" trailer and the
checksum of everything up to and including "6304". -/
theorem build_tag_order (b : QRBuilder) (sts : List EMVTag) (p : List Nat)
    (hv : b.validate = .ok ()) (hs : encodeSchemes b.schemes = .ok sts)
    (hb : b.build = .ok p) :
    p = (let body :=
          (EMVTag.mk (ascii "00") (ascii "01")).encode
          ++ (EMVTag.mk (ascii "01")
                (if b.transaction_amount.isSome then ascii "12" else ascii "11")).encode
          ++ (sts.map EMVTag.encode).flatten
          ++ (EMVTag.mk (ascii "52") b.merchant_category_code).encode
          ++ (EMVTag.mk (ascii "53") (ascii "230")).encode
          ++ (match b.transaction_amount with
              | some a => (EMVTag.mk (ascii "54") a).encode
              | none => [])
          ++ (EMVTag.mk (ascii "58") (ascii "ET")).encode
          ++ (EMVTag.mk (ascii "59") b.merchant_name).encode
          ++ (EMVTag.mk (ascii "60") b.merchant_city).encode
          ++ (match b.additional_data with
              | some d =>
                match d.encode with
                | some t => t.encode
                | none => []
              | none => [])
          ++ (match b.transaction_context with
              | some c => (EMVTag.mk (ascii "80") c).encode
              | none => [])
        body ++ ascii "6304" ++ calculate_crc16 (body ++ ascii "6304")) := by
  obtain ⟨ts, hts, hp, _⟩ := QRBuilder.build_ok_elim b p hb
  rw [QRBuilder.assembleTags_eq b sts hv hs] at hts
  injection hts with hts'
  subst hts'
  rw [hp, fullPayload_eq]
  rcases b.transaction_amount with _ | a <;>
    rcases b.transaction_context with _ | c <;>
    rcases hd : b.additional_data with _ | d
  all_goals
    simp [map_encode_flatten_addl, tags.PAYLOAD_FORMAT_INDICATOR, tags.POINT_OF_INITIATION,
      tags.MERCHANT_CATEGORY_CODE, tags.TRANSACTION_CURRENCY, tags.TRANSACTION_AMOUNT,
      tags.COUNTRY_CODE, tags.MERCHANT_NAME, tags.MERCHANT_CITY, tags.TRANSACTION_CONTEXT,
      constants.PAYLOAD_FORMAT_INDICATOR, constants.ETB_CURRENCY_CODE,
      constants.ETHIOPIA_COUNTRY_CODE, constants.STATIC_QR_POI, constants.DYNAMIC_QR_POI,
      List.append_assoc]

/-- Builder configuration for the tag-order witness: the crate's dynamic
doc example (amount "50.00", bill number, reference label). -/
def cfgTagOrderW : QRBuilder :=
  { merchant_name := ascii "Restaurant"
    merchant_city := ascii "Dire Dawa"
    merchant_category_code := ascii "5812"
    schemes := [.IPSET (ascii "581b314e257f41bfbbdc6384daa31d16") (ascii "CBETETAA")
      (ascii "10000171234567890")]
    transaction_amount := some (ascii "50.00")
    additional_data := some { bill_number := some (ascii "INV-001")
                              reference_label := some (ascii "ORDER-123") } }

/-- Witness for C3: the dynamic doc-example configuration builds and its
payload matches the fixed-order concatenation. -/
theorem build_tag_order_witness :
    (cfgTagOrderW.build).toOption.getD []
      = (let body :=
          (EMVTag.mk (ascii "00") (ascii "01")).encode
          ++ (EMVTag.mk (ascii "01")
                (if cfgTagOrderW.transaction_amount.isSome then ascii "12"
                 else ascii "11")).encode
          ++ ((((encodeSchemes cfgTagOrderW.schemes).toOption.getD []).map
                EMVTag.encode).flatten)
          ++ (EMVTag.mk (ascii "52") cfgTagOrderW.merchant_category_code).encode
          ++ (EMVTag.mk (ascii "53") (ascii "230")).encode
          ++ (match cfgTagOrderW.transaction_amount with
              | some a => (EMVTag.mk (ascii "54") a).encode
              | none => [])
          ++ (EMVTag.mk (ascii "58") (ascii "ET")).encode
          ++ (EMVTag.mk (ascii "59") cfgTagOrderW.merchant_name).encode
          ++ (EMVTag.mk (ascii "60") cfgTagOrderW.merchant_city).encode
          ++ (match cfgTagOrderW.additional_data with
              | some d =>
                match d.encode with
                | some t => t.encode
                | none => []
              | none => [])
          ++ (match cfgTagOrderW.transaction_context with
              | some c => (EMVTag.mk (ascii "80") c).encode
              | none => [])
        body ++ ascii "6304" ++ calculate_crc16 (body ++ ascii "6304")) :=
  build_tag_order cfgTagOrderW ((encodeSchemes cfgTagOrderW.schemes).toOption.getD []) _
    (by rfl) (by rfl) (by rfl)

/-! ## Claim C8: the 512-byte ceiling -/

/-- C8: once the tag vector is assembled, the complete payload including
the CRC trailer is length-checked: over 512 bytes the build fails with
`PayloadTooLong` carrying that length and no payload is returned; at
most 512 bytes the build returns the payload. -/
theorem build_length_ceiling (b : QRBuilder) (ts : List EMVTag)
    (h : b.assembleTags = .ok ts) :
    (512 < (fullPayload ts).length →
      b.build = .error (.PayloadTooLong (fullPayload ts).length))
    ∧ ((fullPayload ts).length ≤ 512 → b.build = .ok (fullPayload ts)) := by
  rw [QRBuilder.build_eq_of_tags b ts h]
  constructor
  · intro hl
    rw [if_pos (by simpa [constants.MAX_QR_LENGTH] using hl)]
  · intro hl
    rw [if_neg (by simp only [constants.MAX_QR_LENGTH, gt_iff_lt, not_lt]; exact hl)]

/-- Over-long configuration for the ceiling witness: a 600-byte
transaction context pushes the payload past 512 bytes. -/
def cfgTooLongW : QRBuilder :=
  { merchant_category_code := ascii "5812"
    schemes := [.Visa (ascii "4111111111111111")]
    transaction_context := some (List.replicate 600 97) }

/-- Small configuration for the success side of the ceiling witness. -/
def cfgCeilingOkW : QRBuilder :=
  { merchant_category_code := ascii "5999"
    schemes := [.Mastercard (ascii "5555555555554444")] }

/-- Witness for C8: the 600-byte-context configuration fails with
`PayloadTooLong`, the small one builds. -/
theorem build_length_ceiling_witness :
    cfgTooLongW.build
        = .error (.PayloadTooLong
            (fullPayload ((cfgTooLongW.assembleTags).toOption.getD [])).length)
    ∧ cfgCeilingOkW.build
        = .ok (fullPayload ((cfgCeilingOkW.assembleTags).toOption.getD [])) := by
  constructor
  · exact (build_length_ceiling cfgTooLongW _ (by rfl)).1 (by decide)
  · exact (build_length_ceiling cfgCeilingOkW _ (by rfl)).2 (by decide)

/-! ## Claim C9: additional-data encoding -/

theorem optTag_eq_nil (id : String) (o : Option (List Nat)) :
    optTag id o = [] ↔ o = none := by
  cases o <;> simp [optTag]

/-- Every tag produced by a successful scheme encoding carries one of the
four fixed scheme IDs. -/
theorem SchemeConfig.encode_id (s : SchemeConfig) (t : EMVTag) (h : s.encode = .ok t) :
    t.id = ascii "02" ∨ t.id = ascii "04" ∨ t.id = ascii "15" ∨ t.id = ascii "28" := by
  cases s with
  | Visa a =>
    injection h with h'
    exact Or.inl (by rw [← h']; rfl)
  | Mastercard a =>
    injection h with h'
    exact Or.inr (Or.inl (by rw [← h']; rfl))
  | UnionPay a =>
    injection h with h'
    exact Or.inr (Or.inr (Or.inl (by rw [← h']; rfl)))
  | IPSET g bi ac =>
    rw [SchemeConfig.encode_ipset_eq] at h
    split_ifs at h
    injection h with h'
    exact Or.inr (Or.inr (Or.inr (by rw [← h']; rfl)))

/-- Every member of a successful `encodeSchemes` result is the encoding
of one of the configured schemes. -/
theorem encodeSchemes_mem : ∀ (l : List SchemeConfig) (sts : List EMVTag),
    encodeSchemes l = .ok sts → ∀ t ∈ sts, ∃ s ∈ l, s.encode = .ok t := by
  intro l
  induction l with
  | nil =>
    intro sts h t ht
    unfold encodeSchemes at h
    injection h with h'
    rw [← h'] at ht
    exact absurd ht (by simp)
  | cons s rest ih =>
    intro sts h t ht
    unfold encodeSchemes at h
    cases he : s.encode with
    | error e =>
      rw [he] at h
      exact absurd h (by simp)
    | ok t0 =>
      rw [he] at h
      cases hr : encodeSchemes rest with
      | error e =>
        rw [hr] at h
        exact absurd h (by simp)
      | ok ts0 =>
        rw [hr] at h
        injection h with h'
        rw [← h'] at ht
        rcases List.mem_cons.mp ht with h1 | h2
        · exact ⟨s, by simp, by rw [he, h1]⟩
        · obtain ⟨s', hs', he'⟩ := ih ts0 hr t h2
          exact ⟨s', by simp [hs'], he'⟩

/-- C9: `AdditionalData.encode` returns nothing exactly when all thirteen
sub-fields are unset; when it returns a tag, that tag is "62" wrapping
the concatenated encodings of exactly the set sub-fields in the fixed ID
order 01-11, 50, 51, and its value is nonempty; and whenever the
configured additional data (if any) encodes to nothing, no tag of the
assembled vector has ID "62". -/
theorem additional_data_spec :
    (∀ d : AdditionalData,
      (d.encode = none ↔ (d.bill_number = none ∧ d.mobile_number = none
        ∧ d.store_label = none ∧ d.loyalty_number = none ∧ d.reference_label = none
        ∧ d.customer_label = none ∧ d.terminal_number = none ∧ d.purpose = none
        ∧ d.additional_customer_data = none ∧ d.merchant_tax_id = none
        ∧ d.merchant_channel = none ∧ d.due_date = none
        ∧ d.amount_after_due_date = none))
      ∧ (∀ t, d.encode = some t →
          t = ⟨ascii "62",
            ((optTag "01" d.bill_number ++ optTag "02" d.mobile_number
              ++ optTag "03" d.store_label ++ optTag "04" d.loyalty_number
              ++ optTag "05" d.reference_label ++ optTag "06" d.customer_label
              ++ optTag "07" d.terminal_number ++ optTag "08" d.purpose
              ++ optTag "09" d.additional_customer_data ++ optTag "10" d.merchant_tax_id
              ++ optTag "11" d.merchant_channel ++ optTag "50" d.due_date
              ++ optTag "51" d.amount_after_due_date).map EMVTag.encode).flatten⟩
          ∧ t.value ≠ []))
    ∧ (∀ (bq : QRBuilder) (ts : List EMVTag), bq.assembleTags = .ok ts →
        (∀ d, bq.additional_data = some d → d.encode = none) →
        ∀ t ∈ ts, t.id ≠ ascii "62") := by
  constructor
  · intro d
    have henc : d.encode = none ↔ d.subTags = [] := by
      unfold AdditionalData.encode
      split_ifs with h
      · exact iff_of_true rfl (List.isEmpty_iff.mp h)
      · exact iff_of_false (by simp) (fun hh => h (by simp [hh]))
    constructor
    · rw [henc]
      simp [AdditionalData.subTags, List.append_eq_nil, optTag_eq_nil, and_assoc]
    · intro t ht
      unfold AdditionalData.encode at ht
      split_ifs at ht with h
      injection ht with ht'
      have hne : d.subTags ≠ [] := fun hh => h (by simp [hh])
      have hval : t.value = (d.subTags.map EMVTag.encode).flatten := by
        rw [← ht']
      constructor
      · exact ht'.symm
      · rw [hval]
        cases hsub : d.subTags with
        | nil => exact absurd hsub hne
        | cons x xs =>
          simp only [List.map_cons, List.flatten_cons]
          intro hc
          exact EMVTag.encode_ne_nil x (List.append_eq_nil.mp hc).1
  · intro bq ts hts hnone t htmem
    obtain ⟨sts, hv, hs, hlist⟩ := QRBuilder.assembleTags_ok_elim bq ts hts
    subst hlist
    have hsts : ∀ t' ∈ sts, t'.id ≠ ascii "62" := by
      intro t' ht'
      obtain ⟨s, _, he⟩ := encodeSchemes_mem bq.schemes sts hs t' ht'
      rcases SchemeConfig.encode_id s t' he with h | h | h | h <;> rw [h] <;> decide
    simp only [List.mem_append] at htmem
    rcases htmem with ((((((h | h) | h) | h) | h) | h) | h)
    · simp only [List.mem_cons, List.not_mem_nil, or_false] at h
      rcases h with rfl | rfl
      · decide
      · exact (show tags.POINT_OF_INITIATION ≠ ascii "62" by decide)
    · exact hsts t h
    · simp only [List.mem_cons, List.not_mem_nil, or_false] at h
      rcases h with rfl | rfl
      · exact (show tags.MERCHANT_CATEGORY_CODE ≠ ascii "62" by decide)
      · decide
    · cases hA : bq.transaction_amount with
      | none => rw [hA] at h; exact absurd h (by simp)
      | some a =>
        rw [hA] at h
        simp only [List.mem_singleton] at h
        subst h
        exact (show tags.TRANSACTION_AMOUNT ≠ ascii "62" by decide)
    · simp only [List.mem_cons, List.not_mem_nil, or_false] at h
      rcases h with rfl | rfl | rfl
      · decide
      · exact (show tags.MERCHANT_NAME ≠ ascii "62" by decide)
      · exact (show tags.MERCHANT_CITY ≠ ascii "62" by decide)
    · have hseg : (match bq.additional_data with
          | some d =>
            match d.encode with
            | some t => [t]
            | none => []
          | none => []) = ([] : List EMVTag) := by
        cases hD : bq.additional_data with
        | none => rfl
        | some d =>
          show (match d.encode with | some t => [t] | none => []) = []
          rw [hnone d hD]
      rw [hseg] at h
      exact absurd h (by simp)
    · cases hC : bq.transaction_context with
      | none => rw [hC] at h; exact absurd h (by simp)
      | some c =>
        rw [hC] at h
        simp only [List.mem_singleton] at h
        subst h
        exact (show tags.TRANSACTION_CONTEXT ≠ ascii "62" by decide)

/-- Witness for C9: the all-unset record encodes to nothing, a record
with one set field encodes to a "62" tag, and a build with the all-unset
record attached emits no "62" tag. -/
theorem additional_data_spec_witness :
    (AdditionalData.mk none none none none none none none none none none none none none).encode
        = none
    ∧ ({ bill_number := some (ascii "INV-001") } : AdditionalData).encode
        = some ⟨ascii "62",
            ((optTag "01" (some (ascii "INV-001"))).map EMVTag.encode).flatten ++ []⟩ := by
  constructor
  · exact (additional_data_spec.1 _).1.mpr
      ⟨rfl, rfl, rfl, rfl, rfl, rfl, rfl, rfl, rfl, rfl, rfl, rfl, rfl⟩
  · have h := ((additional_data_spec.1
      ({ bill_number := some (ascii "INV-001") } : AdditionalData)).2
      (⟨ascii "62", ((optTag "01" (some (ascii "INV-001"))).map EMVTag.encode).flatten ++ []⟩)
      (by decide)).1
    rw [AdditionalData.encode]
    rw [if_neg (by decide)]
    exact congrArg some h.symm

/-! ## Claim C10: empty merchant name and city are accepted -/

/-- C10: validation never requires the merchant name or city to be
present: with both left empty (the unset default) and the rest of the
configuration valid, validation succeeds, the assembled tag vector
contains the zero-length tags 59 and 60, and any successfully built
payload contains "5900" and "6000". -/
theorem empty_name_city_accepted (b : QRBuilder)
    (hn : b.merchant_name = []) (hc : b.merchant_city = [])
    (hm4 : b.merchant_category_code.length = 4)
    (hmd : b.merchant_category_code.all isAsciiDigit = true)
    (hsch : b.schemes ≠ []) :
    b.validate = .ok ()
    ∧ (∀ ts, b.assembleTags = .ok ts →
        EMVTag.mk (ascii "59") [] ∈ ts ∧ EMVTag.mk (ascii "60") [] ∈ ts)
    ∧ (∀ p, b.build = .ok p →
        (∃ l r, l ++ ascii "5900" ++ r = p) ∧ (∃ l r, l ++ ascii "6000" ++ r = p)) := by
  have hmem : ∀ ts, b.assembleTags = .ok ts →
      EMVTag.mk (ascii "59") [] ∈ ts ∧ EMVTag.mk (ascii "60") [] ∈ ts := by
    intro ts hts
    obtain ⟨sts, hv, hs, hlist⟩ := QRBuilder.assembleTags_ok_elim b ts hts
    subst hlist
    constructor <;>
      simp [List.mem_append, hn, hc, tags.MERCHANT_NAME, tags.MERCHANT_CITY]
  refine ⟨?_, hmem, ?_⟩
  · rw [QRBuilder.validate_eq, if_neg (by rw [hn]; simp), if_neg (by rw [hc]; simp),
      if_neg (by simp [hm4, hmd]), if_neg hsch]
  · intro p hp
    obtain ⟨ts, hts, hpp, _⟩ := QRBuilder.build_ok_elim b p hp
    obtain ⟨hmem59, hmem60⟩ := hmem ts hts
    subst hpp
    have hinf : ∀ t ∈ ts, ∃ l r, l ++ t.encode ++ r = fullPayload ts := by
      intro t htm
      obtain ⟨s1, s2, heq⟩ := List.infix_of_mem_flatten (List.mem_map_of_mem EMVTag.encode htm)
      refine ⟨s1, s2 ++ (ascii "63"
        ++ fmt02 (calculate_crc16 ((ts.map EMVTag.encode).flatten ++ ascii "6304")).length
        ++ calculate_crc16 ((ts.map EMVTag.encode).flatten ++ ascii "6304")), ?_⟩
      unfold fullPayload
      rw [← heq]
      simp [List.append_assoc]
    constructor
    · rw [show ascii "5900" = (EMVTag.mk (ascii "59") (@List.nil Nat)).encode from rfl]
      exact hinf _ hmem59
    · rw [show ascii "6000" = (EMVTag.mk (ascii "60") (@List.nil Nat)).encode from rfl]
      exact hinf _ hmem60

/-- Configuration with name and city left at their unset defaults. -/
def cfgEmptyNameW : QRBuilder :=
  { merchant_category_code := ascii "5812"
    schemes := [.Visa (ascii "4111111111111111")] }

/-- Witness for C10: the unset-name-and-city configuration validates,
builds, and its payload contains the zero-length tags "5900" and
"6000". -/
theorem empty_name_city_accepted_witness :
    cfgEmptyNameW.validate = .ok ()
    ∧ (∃ l r, l ++ ascii "5900" ++ r = (cfgEmptyNameW.build).toOption.getD [])
    ∧ (∃ l r, l ++ ascii "6000" ++ r = (cfgEmptyNameW.build).toOption.getD []) := by
  have h := empty_name_city_accepted cfgEmptyNameW rfl rfl (by decide) (by decide) (by decide)
  exact ⟨h.1, (h.2.2 _ (by rfl)).1, (h.2.2 _ (by rfl)).2⟩

end EthQR
